import Mathlib

/-!
Shallow embedding of the India tax-regime comparison engine
(`tax_calculator.py` together with the input variables of `variables.py`).

Monetary amounts and statutory rates are Python floats in the source; the
embedding uses exact rationals (`ℚ`).  The module-level globals read from the
environment in `variables.py` become the fields of an explicit `InputRecord`
parameter.  String-valued enumerations (`age_category`, `city_type`, the
regime selector) become two-or-three-valued inductive types.  The string-keyed
dictionaries the calculators build become association lists `List (String × ℚ)`
and the Python `sum(d.values())` becomes a fold over the second components.
-/

/-- The regime selector: the source passes the strings `'old'` / `'new'`. -/
inductive Regime where
  | old
  | new
deriving DecidableEq, Repr

/-- `age_category`: `"below_60"`, `"senior"`, `"super_senior"`. -/
inductive AgeCategory where
  | below_60
  | senior
  | super_senior
deriving DecidableEq, Repr

/-- `city_type`: `"metro"` or `"non_metro"`. -/
inductive CityType where
  | metro
  | non_metro
deriving DecidableEq, Repr

/-- The input record: the module-level variables of `variables.py` that the
tax engine reads (each defaults to zero / false / `below_60` / `non_metro`,
mirroring the environment-variable defaults). -/
structure InputRecord where
  age_category : AgeCategory := .below_60
  city_type : CityType := .non_metro
  basic_salary : ℚ := 0
  dearness_allowance : ℚ := 0
  hra_received : ℚ := 0
  rent_paid_annual : ℚ := 0
  lta_received : ℚ := 0
  lta_claimed : ℚ := 0
  conveyance_allowance : ℚ := 0
  conveyance_actual_expenses : ℚ := 0
  special_allowance : ℚ := 0
  medical_allowance : ℚ := 0
  transport_allowance : ℚ := 0
  is_disabled : Bool := false
  children_education_allowance : ℚ := 0
  hostel_allowance : ℚ := 0
  number_of_children : ℕ := 0
  helper_allowance : ℚ := 0
  helper_actual_expenses : ℚ := 0
  uniform_allowance : ℚ := 0
  uniform_actual_expenses : ℚ := 0
  meal_allowance : ℚ := 0
  number_of_working_days : ℕ := 0
  bonus : ℚ := 0
  commission : ℚ := 0
  overtime_pay : ℚ := 0
  gratuity_received : ℚ := 0
  leave_encashment_received : ℚ := 0
  is_government_employee : Bool := false
  employer_epf_contribution : ℚ := 0
  employer_nps_contribution : ℚ := 0
  employer_superannuation_contribution : ℚ := 0
  professional_tax_paid : ℚ := 0
  entertainment_allowance : ℚ := 0
  other_section_10_exemptions : ℚ := 0
  epf_contribution_employee : ℚ := 0
  ppf_contribution : ℚ := 0
  life_insurance_premium : ℚ := 0
  elss_investment : ℚ := 0
  nsc_investment : ℚ := 0
  sukanya_samriddhi : ℚ := 0
  tax_saver_fd : ℚ := 0
  tuition_fees : ℚ := 0
  home_loan_principal : ℚ := 0
  scss_investment : ℚ := 0
  other_80c : ℚ := 0
  pension_fund_contribution : ℚ := 0
  employee_nps_contribution : ℚ := 0
  additional_nps_contribution : ℚ := 0
  health_insurance_self : ℚ := 0
  health_insurance_parents : ℚ := 0
  preventive_health_checkup : ℚ := 0
  parents_are_senior_citizen : Bool := false
  disabled_dependent_expenses : ℚ := 0
  is_severe_disability : Bool := false
  medical_treatment_expenses : ℚ := 0
  education_loan_interest : ℚ := 0
  home_loan_interest_80ee : ℚ := 0
  home_loan_interest_80eea : ℚ := 0
  ev_loan_interest : ℚ := 0
  donations_100_percent : ℚ := 0
  donations_50_percent : ℚ := 0
  rent_paid_no_hra : ℚ := 0
  savings_account_interest : ℚ := 0
  senior_citizen_interest_income : ℚ := 0
  self_disability_claim : Bool := false
  self_severe_disability : Bool := false
  home_loan_interest_self_occupied : ℚ := 0
  home_loan_interest_let_out : ℚ := 0
  rental_income_annual : ℚ := 0
  pre_construction_interest : ℚ := 0
  construction_completed : Bool := false
  interest_income_other : ℚ := 0
  other_income : ℚ := 0

/- The `LIMITS` constant table (the entries the engine reads). -/
namespace LIMITS

def standard_deduction_old : ℚ := 50000
def standard_deduction_new : ℚ := 75000
def gratuity_old : ℚ := 2000000
def gratuity_new : ℚ := 500000
def leave_encashment : ℚ := 2500000
def children_education_per_child_monthly : ℚ := 100
def hostel_per_child_monthly : ℚ := 300
def max_children_for_exemption : ℕ := 2
def transport_disabled_monthly : ℚ := 3200
def meal_per_meal : ℚ := 50
def limit_80c : ℚ := 150000
def limit_80ccd_1b : ℚ := 50000
def percent_80ccd_2 : ℚ := 0.14
def self_normal_80d : ℚ := 25000
def self_senior_80d : ℚ := 50000
def parents_normal_80d : ℚ := 25000
def parents_senior_80d : ℚ := 50000
def preventive_80d : ℚ := 5000
def normal_80dd : ℚ := 75000
def severe_80dd : ℚ := 125000
def normal_80ddb : ℚ := 40000
def senior_80ddb : ℚ := 100000
def limit_80ee : ℚ := 50000
def limit_80eea : ℚ := 150000
def limit_80eeb : ℚ := 150000
def monthly_80gg : ℚ := 5000
def limit_80tta : ℚ := 10000
def limit_80ttb : ℚ := 50000
def normal_80u : ℚ := 75000
def severe_80u : ℚ := 125000
def home_loan_interest_self_occupied : ℚ := 200000
def employer_contribution_combined : ℚ := 750000
def rebate_87a_old_limit : ℚ := 500000
def rebate_87a_old_amount : ℚ := 12500
def rebate_87a_new_limit : ℚ := 1200000
def rebate_87a_new_amount : ℚ := 60000
def surcharge_50l : ℚ := 5000000
def surcharge_1cr : ℚ := 10000000
def surcharge_2cr : ℚ := 20000000
def surcharge_5cr : ℚ := 50000000
def cess_rate : ℚ := 0.04

end LIMITS

/-- A slab entry: upper bound (`none` stands for the source's `float('inf')`)
and marginal rate. -/
abbrev Slab := Option ℚ × ℚ

/-- `NEW_REGIME_SLABS`. -/
def NEW_REGIME_SLABS : List Slab :=
  [(some 400000, 0), (some 800000, 0.05), (some 1200000, 0.10),
   (some 1600000, 0.15), (some 2000000, 0.20), (some 2400000, 0.25),
   (none, 0.30)]

/-- `OLD_REGIME_SLABS_BELOW_60`. -/
def OLD_REGIME_SLABS_BELOW_60 : List Slab :=
  [(some 250000, 0), (some 500000, 0.05), (some 1000000, 0.20), (none, 0.30)]

/-- `OLD_REGIME_SLABS_SENIOR`. -/
def OLD_REGIME_SLABS_SENIOR : List Slab :=
  [(some 300000, 0), (some 500000, 0.05), (some 1000000, 0.20), (none, 0.30)]

/-- `OLD_REGIME_SLABS_SUPER_SENIOR`. -/
def OLD_REGIME_SLABS_SUPER_SENIOR : List Slab :=
  [(some 500000, 0), (some 1000000, 0.20), (none, 0.30)]

/-- The slab-table selection inside `calculate_tax_on_income`. -/
def slabsFor (regime : Regime) (age : AgeCategory) : List Slab :=
  match regime with
  | .new => NEW_REGIME_SLABS
  | .old =>
    match age with
    | .super_senior => OLD_REGIME_SLABS_SUPER_SENIOR
    | .senior => OLD_REGIME_SLABS_SENIOR
    | .below_60 => OLD_REGIME_SLABS_BELOW_60

/-- The `for limit, rate in slabs` loop of `calculate_tax_on_income`, with the
running `previous_limit` made explicit.  A `none` upper bound is the source's
`float('inf')`: `min(income, inf)` is `income`, and once `previous_limit` is
infinite every later iteration breaks, which the embedding realises by passing
`taxable_income` itself as the next `previous_limit` (the break test
`taxable_income ≤ previous_limit` then succeeds just as it does against `inf`). -/
def taxLoop (taxable_income : ℚ) : List Slab → ℚ → ℚ
  | [], _ => 0
  | (limit, rate) :: rest, previous_limit =>
    if taxable_income ≤ previous_limit then 0
    else
      match limit with
      | some l => (min taxable_income l - previous_limit) * rate +
          taxLoop taxable_income rest l
      | none => (taxable_income - previous_limit) * rate +
          taxLoop taxable_income rest taxable_income

/-- `calculate_tax_on_income` (the global `v.age_category` becomes the `age`
parameter). -/
def calculate_tax_on_income (taxable_income : ℚ) (regime : Regime)
    (age : AgeCategory) : ℚ :=
  if taxable_income ≤ 0 then 0
  else taxLoop taxable_income (slabsFor regime age) 0

/-- `calculate_rebate_87a`. -/
def calculate_rebate_87a (taxable_income tax : ℚ) (regime : Regime) : ℚ :=
  match regime with
  | .new =>
    if taxable_income ≤ LIMITS.rebate_87a_new_limit then
      min tax LIMITS.rebate_87a_new_amount
    else 0
  | .old =>
    if taxable_income ≤ LIMITS.rebate_87a_old_limit then
      min tax LIMITS.rebate_87a_old_amount
    else 0

/-- `calculate_surcharge`. -/
def calculate_surcharge (taxable_income tax : ℚ) (regime : Regime) : ℚ :=
  if taxable_income ≤ LIMITS.surcharge_50l then 0
  else
    let rate : ℚ :=
      match regime with
      | .new =>
        if taxable_income > LIMITS.surcharge_2cr then 0.25
        else if taxable_income > LIMITS.surcharge_1cr then 0.15
        else if taxable_income > LIMITS.surcharge_50l then 0.10
        else 0
      | .old =>
        if taxable_income > LIMITS.surcharge_5cr then 0.37
        else if taxable_income > LIMITS.surcharge_2cr then 0.25
        else if taxable_income > LIMITS.surcharge_1cr then 0.15
        else if taxable_income > LIMITS.surcharge_50l then 0.10
        else 0
    tax * rate

/-- `sum(d.values())` over an association list. -/
def dictSum (d : List (String × ℚ)) : ℚ :=
  (d.map Prod.snd).sum

/-- `calculate_hra_exemption` (Section 10(13A)). -/
def calculate_hra_exemption (v : InputRecord) : ℚ :=
  if v.hra_received = 0 ∨ v.rent_paid_annual = 0 then 0
  else
    let basic_plus_da := v.basic_salary + v.dearness_allowance
    let actual_hra := v.hra_received
    let rent_minus_10_percent := v.rent_paid_annual - 0.10 * basic_plus_da
    let percent_of_salary :=
      if v.city_type = .metro then 0.50 * basic_plus_da
      else 0.40 * basic_plus_da
    max 0 (min actual_hra (min rent_minus_10_percent percent_of_salary))

/-- `calculate_gross_salary`. -/
def calculate_gross_salary (v : InputRecord) : ℚ :=
  let gross :=
    v.basic_salary + v.dearness_allowance + v.hra_received + v.lta_received +
    v.conveyance_allowance + v.special_allowance + v.medical_allowance +
    v.transport_allowance + v.children_education_allowance +
    v.hostel_allowance + v.helper_allowance + v.uniform_allowance +
    v.meal_allowance + v.bonus + v.commission + v.overtime_pay +
    v.gratuity_received + v.leave_encashment_received +
    v.entertainment_allowance
  let employer_total :=
    v.employer_epf_contribution + v.employer_nps_contribution +
    v.employer_superannuation_contribution
  if employer_total > LIMITS.employer_contribution_combined then
    gross + (employer_total - LIMITS.employer_contribution_combined)
  else gross

/-- `calculate_exemptions_old_regime` (Section 10, legacy regime): the dict is
built as an association list, one conditional singleton per `if ...: d[k] = x`. -/
def calculate_exemptions_old_regime (v : InputRecord) : List (String × ℚ) :=
  let hra_exempt := calculate_hra_exemption v
  let lta_exempt := min v.lta_received v.lta_claimed
  let num_children := min v.number_of_children LIMITS.max_children_for_exemption
  let education_exempt := min v.children_education_allowance
    ((num_children : ℚ) * LIMITS.children_education_per_child_monthly * 12)
  let hostel_exempt := min v.hostel_allowance
    ((num_children : ℚ) * LIMITS.hostel_per_child_monthly * 12)
  let helper_exempt := min v.helper_allowance v.helper_actual_expenses
  let uniform_exempt := min v.uniform_allowance v.uniform_actual_expenses
  let conveyance_exempt := min v.conveyance_allowance v.conveyance_actual_expenses
  let meal_exempt := min v.meal_allowance
    (LIMITS.meal_per_meal * 2 * (v.number_of_working_days : ℚ))
  let gratuity_exempt := min v.gratuity_received LIMITS.gratuity_old
  let leave_exempt :=
    if v.is_government_employee then v.leave_encashment_received
    else min v.leave_encashment_received LIMITS.leave_encashment
  (if hra_exempt > 0 then [("HRA Exemption [10(13A)]", hra_exempt)] else []) ++
  (if lta_exempt > 0 then [("LTA Exemption [10(5)]", lta_exempt)] else []) ++
  (if education_exempt > 0 then
    [("Children Education [10(14)(ii)]", education_exempt)] else []) ++
  (if hostel_exempt > 0 then
    [("Hostel Allowance [10(14)(ii)]", hostel_exempt)] else []) ++
  (if helper_exempt > 0 then [("Helper/Driver [10(14)(i)]", helper_exempt)] else []) ++
  (if uniform_exempt > 0 then
    [("Uniform Allowance [10(14)(i)]", uniform_exempt)] else []) ++
  (if conveyance_exempt > 0 then [("Conveyance [10(14)]", conveyance_exempt)] else []) ++
  (if v.is_disabled then
    let transport_exempt := min v.transport_allowance
      (LIMITS.transport_disabled_monthly * 12)
    if transport_exempt > 0 then
      [("Transport (Disabled) [10(14)]", transport_exempt)] else []
   else []) ++
  (if meal_exempt > 0 then [("Meal Voucher Exemption", meal_exempt)] else []) ++
  (if gratuity_exempt > 0 then [("Gratuity [10(10)]", gratuity_exempt)] else []) ++
  (if leave_exempt > 0 then [("Leave Encashment [10(10AA)]", leave_exempt)] else []) ++
  (if v.other_section_10_exemptions > 0 then
    [("Other Section 10 Exemptions", v.other_section_10_exemptions)] else [])

/-- `calculate_exemptions_new_regime` (Section 10, simplified regime). -/
def calculate_exemptions_new_regime (v : InputRecord) : List (String × ℚ) :=
  let conveyance_exempt := min v.conveyance_allowance v.conveyance_actual_expenses
  let gratuity_exempt := min v.gratuity_received LIMITS.gratuity_new
  let leave_exempt :=
    if v.is_government_employee then v.leave_encashment_received
    else min v.leave_encashment_received LIMITS.leave_encashment
  (if v.is_disabled then
    let transport_exempt := min v.transport_allowance
      (LIMITS.transport_disabled_monthly * 12)
    if transport_exempt > 0 then
      [("Transport (Disabled) [10(14)]", transport_exempt)] else []
   else []) ++
  (if conveyance_exempt > 0 then
    [("Conveyance (Official) [10(14)]", conveyance_exempt)] else []) ++
  (if gratuity_exempt > 0 then [("Gratuity [10(10)]", gratuity_exempt)] else []) ++
  (if leave_exempt > 0 then [("Leave Encashment [10(10AA)]", leave_exempt)] else [])

/-- `calculate_section_16_old_regime`. -/
def calculate_section_16_old_regime (v : InputRecord) : List (String × ℚ) :=
  [("Standard Deduction [16(ia)]", LIMITS.standard_deduction_old)] ++
  (if v.professional_tax_paid > 0 then
    [("Professional Tax [16(iii)]", min v.professional_tax_paid 2500)] else []) ++
  (if v.is_government_employee ∧ v.entertainment_allowance > 0 then
    [("Entertainment Allowance [16(ii)]",
      min v.entertainment_allowance (min (v.basic_salary / 5) 5000))] else [])

/-- `calculate_section_16_new_regime`. -/
def calculate_section_16_new_regime (_v : InputRecord) : List (String × ℚ) :=
  [("Standard Deduction [16(ia)]", LIMITS.standard_deduction_new)]

/-- `calculate_income_from_house_property`, first component of the returned
pair (the `details` dict is display-only and dropped by `calculate_tax`). -/
def calculate_income_from_house_property (v : InputRecord) (regime : Regime) : ℚ :=
  let self_occupied_loss :=
    if v.home_loan_interest_self_occupied > 0 ∧ regime = .old then
      min v.home_loan_interest_self_occupied LIMITS.home_loan_interest_self_occupied
    else 0
  let let_out_income :=
    if v.rental_income_annual > 0 then
      let gross_rent := v.rental_income_annual
      let standard_deduction := gross_rent * 0.30
      let interest_deduction := v.home_loan_interest_let_out
      gross_rent - standard_deduction - interest_deduction
    else 0
  let self_occupied_loss' :=
    if v.construction_completed ∧ v.pre_construction_interest > 0 ∧ regime = .old then
      self_occupied_loss + v.pre_construction_interest / 5
    else self_occupied_loss
  let total_house_property := let_out_income - self_occupied_loss'
  if total_house_property < -200000 then -200000 else total_house_property

/-- `calculate_chapter_via_old_regime` (Chapter VI-A, legacy regime).  The
source computes `preventive = min(v.preventive_health_checkup,
LIMITS['80d_preventive'])` but never adds it to any total; the dead binding is
kept. -/
def calculate_chapter_via_old_regime (v : InputRecord) : List (String × ℚ) :=
  let total_80c :=
    v.epf_contribution_employee + v.ppf_contribution +
    v.life_insurance_premium + v.elss_investment + v.nsc_investment +
    v.sukanya_samriddhi + v.tax_saver_fd + v.tuition_fees +
    v.home_loan_principal + v.scss_investment + v.other_80c +
    v.pension_fund_contribution +
    min v.employee_nps_contribution LIMITS.limit_80c
  let deduction_80c := min total_80c LIMITS.limit_80c
  let deduction_80ccd_1b := min v.additional_nps_contribution LIMITS.limit_80ccd_1b
  let basic_plus_da := v.basic_salary + v.dearness_allowance
  let max_employer_nps := basic_plus_da * LIMITS.percent_80ccd_2
  let deduction_80ccd_2 := min v.employer_nps_contribution max_employer_nps
  let self_limit :=
    if v.age_category ≠ .below_60 then LIMITS.self_senior_80d
    else LIMITS.self_normal_80d
  let deduction_80d_self := min v.health_insurance_self self_limit
  let parents_limit :=
    if v.parents_are_senior_citizen then LIMITS.parents_senior_80d
    else LIMITS.parents_normal_80d
  let deduction_80d_parents := min v.health_insurance_parents parents_limit
  let _preventive := min v.preventive_health_checkup LIMITS.preventive_80d
  let total_80d := deduction_80d_self + deduction_80d_parents
  (if deduction_80c > 0 then [("Section 80C", deduction_80c)] else []) ++
  (if deduction_80ccd_1b > 0 then
    [("Section 80CCD(1B) - Add. NPS", deduction_80ccd_1b)] else []) ++
  (if deduction_80ccd_2 > 0 then
    [("Section 80CCD(2) - Employer NPS", deduction_80ccd_2)] else []) ++
  (if total_80d > 0 then [("Section 80D - Health Insurance", total_80d)] else []) ++
  (if v.disabled_dependent_expenses > 0 then
    if v.is_severe_disability then
      [("Section 80DD - Disabled Dependent", LIMITS.severe_80dd)]
    else
      [("Section 80DD - Disabled Dependent", LIMITS.normal_80dd)]
   else []) ++
  (if v.medical_treatment_expenses > 0 then
    let limit :=
      if v.age_category ≠ .below_60 then LIMITS.senior_80ddb
      else LIMITS.normal_80ddb
    [("Section 80DDB - Medical Treatment", min v.medical_treatment_expenses limit)]
   else []) ++
  (if v.education_loan_interest > 0 then
    [("Section 80E - Education Loan", v.education_loan_interest)] else []) ++
  (if v.home_loan_interest_80ee > 0 then
    [("Section 80EE - Home Loan", min v.home_loan_interest_80ee LIMITS.limit_80ee)]
   else []) ++
  (if v.home_loan_interest_80eea > 0 then
    [("Section 80EEA - Add. Home Loan",
      min v.home_loan_interest_80eea LIMITS.limit_80eea)] else []) ++
  (if v.ev_loan_interest > 0 then
    [("Section 80EEB - EV Loan", min v.ev_loan_interest LIMITS.limit_80eeb)]
   else []) ++
  (if v.donations_100_percent > 0 then
    [("Section 80G - Donations (100%)", v.donations_100_percent)] else []) ++
  (if v.donations_50_percent > 0 then
    [("Section 80G - Donations (50%)", v.donations_50_percent * 0.5)] else []) ++
  (if v.rent_paid_no_hra > 0 ∧ v.hra_received = 0 then
    [("Section 80GG - Rent", min v.rent_paid_no_hra (LIMITS.monthly_80gg * 12))]
   else []) ++
  (if v.age_category = .below_60 ∧ v.savings_account_interest > 0 then
    [("Section 80TTA - Savings Interest",
      min v.savings_account_interest LIMITS.limit_80tta)] else []) ++
  (if v.age_category ≠ .below_60 ∧ v.senior_citizen_interest_income > 0 then
    [("Section 80TTB - Interest Income",
      min v.senior_citizen_interest_income LIMITS.limit_80ttb)] else []) ++
  (if v.self_disability_claim then
    if v.self_severe_disability then
      [("Section 80U - Self Disability", LIMITS.severe_80u)]
    else
      [("Section 80U - Self Disability", LIMITS.normal_80u)]
   else [])

/-- `calculate_chapter_via_new_regime` (Chapter VI-A, simplified regime). -/
def calculate_chapter_via_new_regime (v : InputRecord) : List (String × ℚ) :=
  let basic_plus_da := v.basic_salary + v.dearness_allowance
  let max_employer_nps := basic_plus_da * LIMITS.percent_80ccd_2
  let deduction_80ccd_2 := min v.employer_nps_contribution max_employer_nps
  if deduction_80ccd_2 > 0 then
    [("Section 80CCD(2) - Employer NPS", deduction_80ccd_2)]
  else []

/-- The `TaxBreakdown` dataclass (the fields `calculate_tax` populates). -/
structure TaxBreakdown where
  regime : Regime
  gross_salary : ℚ
  exemptions : List (String × ℚ)
  total_exemptions : ℚ
  income_from_salary : ℚ
  section_16_deductions : List (String × ℚ)
  total_section_16 : ℚ
  net_salary_income : ℚ
  income_from_house_property : ℚ
  other_income : ℚ
  gross_total_income : ℚ
  chapter_via_deductions : List (String × ℚ)
  total_chapter_via : ℚ
  taxable_income : ℚ
  tax_on_income : ℚ
  rebate_87a : ℚ
  tax_after_rebate : ℚ
  surcharge : ℚ
  cess : ℚ
  total_tax : ℚ
  effective_tax_rate : ℚ

/-- `calculate_tax`: the 16-step pipeline. -/
def calculate_tax (v : InputRecord) (regime : Regime) : TaxBreakdown :=
  let gross_salary := calculate_gross_salary v
  let exemptions :=
    if regime = .old then calculate_exemptions_old_regime v
    else calculate_exemptions_new_regime v
  let total_exemptions := dictSum exemptions
  let income_from_salary := gross_salary - total_exemptions
  let section_16_deductions :=
    if regime = .old then calculate_section_16_old_regime v
    else calculate_section_16_new_regime v
  let total_section_16 := dictSum section_16_deductions
  let net_salary_income := max 0 (income_from_salary - total_section_16)
  let income_from_house_property := calculate_income_from_house_property v regime
  let other_income :=
    v.interest_income_other + v.other_income + v.savings_account_interest
  let gross_total_income :=
    net_salary_income + income_from_house_property + other_income
  let chapter_via_deductions :=
    if regime = .old then calculate_chapter_via_old_regime v
    else calculate_chapter_via_new_regime v
  let total_chapter_via := dictSum chapter_via_deductions
  let taxable_income := max 0 (gross_total_income - total_chapter_via)
  let tax_on_income := calculate_tax_on_income taxable_income regime v.age_category
  let rebate_87a := calculate_rebate_87a taxable_income tax_on_income regime
  let tax_after_rebate := max 0 (tax_on_income - rebate_87a)
  let surcharge := calculate_surcharge taxable_income tax_after_rebate regime
  let cess := (tax_after_rebate + surcharge) * LIMITS.cess_rate
  let total_tax := tax_after_rebate + surcharge + cess
  let effective_tax_rate :=
    if gross_salary > 0 then total_tax / gross_salary * 100 else 0
  { regime := regime
    gross_salary := gross_salary
    exemptions := exemptions
    total_exemptions := total_exemptions
    income_from_salary := income_from_salary
    section_16_deductions := section_16_deductions
    total_section_16 := total_section_16
    net_salary_income := net_salary_income
    income_from_house_property := income_from_house_property
    other_income := other_income
    gross_total_income := gross_total_income
    chapter_via_deductions := chapter_via_deductions
    total_chapter_via := total_chapter_via
    taxable_income := taxable_income
    tax_on_income := tax_on_income
    rebate_87a := rebate_87a
    tax_after_rebate := tax_after_rebate
    surcharge := surcharge
    cess := cess
    total_tax := total_tax
    effective_tax_rate := effective_tax_rate }

/-- `compare_regimes`: old regime computed first, as in the source. -/
def compare_regimes (v : InputRecord) : TaxBreakdown × TaxBreakdown :=
  let old_regime := calculate_tax v .old
  let new_regime := calculate_tax v .new
  (old_regime, new_regime)

/-- `compare_regimes` with the two engine invocations evaluated in the
opposite order (simplified regime first); used to state order-independence. -/
def compare_regimes_swapped (v : InputRecord) : TaxBreakdown × TaxBreakdown :=
  let new_regime := calculate_tax v .new
  let old_regime := calculate_tax v .old
  (old_regime, new_regime)

/-! ## Helper lemmas -/

/-- The floor pattern `if x < c then c else x` is `max c x`. -/
theorem ite_floor_eq_max (c x : ℚ) : (if x < c then c else x) = max c x := by
  rcases le_or_lt c x with h | h
  · rw [if_neg (not_lt.mpr h), max_eq_right h]
  · rw [if_pos h, max_eq_left h.le]

/-! ## Claims -/

/-- The Input Record of claim C1: `basic_salary = 1200000`, everything else at
its zero / false / enum default. -/
def onlyBasicRecord : InputRecord := { basic_salary := 1200000 }

/-- C1: for the Input Record with only `basic_salary = 1,200,000`, the
simplified (new) regime returns `taxable_income = 1,125,000` (gross 1,200,000
minus the 75,000 standard deduction) and `total_tax = 0` (the Section 87A
rebate cancels the slab tax, so surcharge and cess are zero as well). -/
theorem C1_new_regime_basic_only :
    (calculate_tax onlyBasicRecord .new).taxable_income = 1125000 ∧
    (calculate_tax onlyBasicRecord .new).total_tax = 0 := by
  have hgross : calculate_gross_salary onlyBasicRecord = 1200000 := by
    norm_num [calculate_gross_salary, onlyBasicRecord,
      LIMITS.employer_contribution_combined]
  have hex : calculate_exemptions_new_regime onlyBasicRecord = [] := by
    norm_num [calculate_exemptions_new_regime, onlyBasicRecord,
      LIMITS.gratuity_new, LIMITS.leave_encashment,
      LIMITS.transport_disabled_monthly]
  have hs16 : calculate_section_16_new_regime onlyBasicRecord =
      [("Standard Deduction [16(ia)]", 75000)] := by
    norm_num [calculate_section_16_new_regime, LIMITS.standard_deduction_new]
  have hhp : calculate_income_from_house_property onlyBasicRecord .new = 0 := by
    norm_num [calculate_income_from_house_property, onlyBasicRecord]
  have hvia : calculate_chapter_via_new_regime onlyBasicRecord = [] := by
    norm_num [calculate_chapter_via_new_regime, onlyBasicRecord,
      LIMITS.percent_80ccd_2]
  have htax : calculate_tax_on_income 1125000 .new .below_60 = 52500 := by
    norm_num [calculate_tax_on_income, slabsFor, NEW_REGIME_SLABS, taxLoop]
  have hreb : calculate_rebate_87a 1125000 52500 .new = 52500 := by
    norm_num [calculate_rebate_87a, LIMITS.rebate_87a_new_limit,
      LIMITS.rebate_87a_new_amount]
  have hsur : calculate_surcharge 1125000 0 .new = 0 := by
    norm_num [calculate_surcharge, LIMITS.surcharge_50l]
  have hage : onlyBasicRecord.age_category = .below_60 := rfl
  have ho1 : onlyBasicRecord.interest_income_other = 0 := rfl
  have ho2 : onlyBasicRecord.other_income = 0 := rfl
  have ho3 : onlyBasicRecord.savings_account_interest = 0 := rfl
  constructor <;>
    · simp [calculate_tax, hgross, hex, hs16, hhp, hvia, hage, ho1, ho2, ho3,
        dictSum]
      norm_num [htax, hreb, hsur, LIMITS.cess_rate]

/-- The house-property formula exactly as the C2 claim words it: gross annual
rent minus 30% of gross rent minus the (uncapped) let-out loan interest,
subject only to the overall −200,000 loss floor. -/
def claimed_let_out_house_property (v : InputRecord) : ℚ :=
  max (-200000) (v.rental_income_annual - v.rental_income_annual * 0.30 -
    v.home_loan_interest_let_out)

/-- A record with zero rental income but positive let-out loan interest. -/
def C2CounterRecord : InputRecord := { home_loan_interest_let_out := 300000 }

/-- C2 counterexample: with rental income 0 and let-out interest 300,000 (and
self-occupied and pre-construction interest zero), the code returns 0, while
the claimed formula gives max(−200000, 0 − 0 − 300000) = −200,000. -/
theorem C2_counterexample :
    calculate_income_from_house_property C2CounterRecord .old ≠
      claimed_let_out_house_property C2CounterRecord := by
  norm_num [calculate_income_from_house_property,
    claimed_let_out_house_property, C2CounterRecord]

/-- C2 (amended): with self-occupied and pre-construction interest zero, the
house-property income equals the claimed rent − 30% − interest formula (floored
at −200,000) whenever rental income is positive; when rental income is not
positive the calculator returns 0 and the let-out loan interest is ignored. -/
theorem C2_let_out_formula (v : InputRecord) (regime : Regime)
    (hso : v.home_loan_interest_self_occupied = 0)
    (hpc : v.pre_construction_interest = 0) :
    (0 < v.rental_income_annual →
      calculate_income_from_house_property v regime =
        claimed_let_out_house_property v) ∧
    (v.rental_income_annual ≤ 0 →
      calculate_income_from_house_property v regime = 0) := by
  constructor
  · intro hr
    simp only [calculate_income_from_house_property,
      claimed_let_out_house_property, hso, hpc, lt_irrefl, gt_iff_lt,
      false_and, and_false, if_false, if_pos hr]
    rw [sub_zero, ite_floor_eq_max]
  · intro hr
    simp only [calculate_income_from_house_property, hso, hpc, lt_irrefl,
      gt_iff_lt, false_and, and_false, if_false, if_neg (not_lt.mpr hr)]
    norm_num

/-- A record exercising the amended C2 formula: rent 1,000,000, let-out
interest 100,000. -/
def C2WitnessRecord : InputRecord :=
  { rental_income_annual := 1000000, home_loan_interest_let_out := 100000 }

/-- Witness for `C2_let_out_formula` at a concrete record. -/
theorem C2_let_out_formula_witness :
    calculate_income_from_house_property C2WitnessRecord .new = 600000 := by
  have h := (C2_let_out_formula C2WitnessRecord .new rfl rfl).1
    (by norm_num [C2WitnessRecord])
  rw [h]; norm_num [claimed_let_out_house_property, C2WitnessRecord]

/-- C3: for every Input Record and both regimes, the house-property income
returned by the calculator — which is exactly the value `calculate_tax` places
in the Breakdown — is never below −200,000. -/
theorem C3_house_property_floor (v : InputRecord) (regime : Regime) :
    -200000 ≤ calculate_income_from_house_property v regime ∧
    (calculate_tax v regime).income_from_house_property =
      calculate_income_from_house_property v regime := by
  refine ⟨?_, rfl⟩
  unfold calculate_income_from_house_property
  rw [ite_floor_eq_max]
  exact le_max_left _ _

/-- C5: the Section 87A rebate is min(tax, regime amount) at or below the
regime threshold (legacy: 500,000 / 12,500; simplified: 1,200,000 / 60,000)
and 0 above it; at taxable income exactly 1,200,000 with tax 60,000 the
simplified-regime rebate is 60,000 (tax after rebate 0), and at 1,200,001 the
rebate is 0. -/
theorem C5_rebate_87a (ti tax : ℚ) :
    (ti ≤ 500000 → calculate_rebate_87a ti tax .old = min tax 12500) ∧
    (500000 < ti → calculate_rebate_87a ti tax .old = 0) ∧
    (ti ≤ 1200000 → calculate_rebate_87a ti tax .new = min tax 60000) ∧
    (1200000 < ti → calculate_rebate_87a ti tax .new = 0) ∧
    calculate_rebate_87a 1200000 60000 .new = 60000 ∧
    max 0 ((60000 : ℚ) - calculate_rebate_87a 1200000 60000 .new) = 0 ∧
    calculate_rebate_87a 1200001 tax .new = 0 := by
  refine ⟨fun h => ?_, fun h => ?_, fun h => ?_, fun h => ?_, ?_, ?_, ?_⟩
  · simp only [calculate_rebate_87a, LIMITS.rebate_87a_old_limit,
      LIMITS.rebate_87a_old_amount]
    rw [if_pos h]
  · simp only [calculate_rebate_87a, LIMITS.rebate_87a_old_limit,
      LIMITS.rebate_87a_old_amount]
    rw [if_neg (not_le.mpr h)]
  · simp only [calculate_rebate_87a, LIMITS.rebate_87a_new_limit,
      LIMITS.rebate_87a_new_amount]
    rw [if_pos h]
  · simp only [calculate_rebate_87a, LIMITS.rebate_87a_new_limit,
      LIMITS.rebate_87a_new_amount]
    rw [if_neg (not_le.mpr h)]
  · norm_num [calculate_rebate_87a, LIMITS.rebate_87a_new_limit,
      LIMITS.rebate_87a_new_amount]
  · norm_num [calculate_rebate_87a, LIMITS.rebate_87a_new_limit,
      LIMITS.rebate_87a_new_amount]
  · norm_num [calculate_rebate_87a, LIMITS.rebate_87a_new_limit,
      LIMITS.rebate_87a_new_amount]

/-- Witness for `C5_rebate_87a`: the first and second conjuncts applied at
concrete inputs. -/
theorem C5_rebate_87a_witness :
    calculate_rebate_87a 400000 20000 .old = min 20000 12500 ∧
    calculate_rebate_87a 600000 20000 .old = 0 :=
  ⟨(C5_rebate_87a 400000 20000).1 (by norm_num),
   (C5_rebate_87a 600000 20000).2.1 (by norm_num)⟩

/-- C6: for both regimes the surcharge is 0 whenever taxable income is at or
below 5,000,000; the thresholds are strict greater-than comparisons, so income
exactly equal to a threshold uses the lower bracket's rate (10% at exactly one
crore, 15% at exactly two crore, 25% at exactly five crore in the legacy
regime; 10% at one crore and 15% at two crore in the simplified regime), and
income 5,000,001 in the legacy regime draws 10% of tax-after-rebate. -/
theorem C6_surcharge_thresholds (ti tax : ℚ) (regime : Regime) :
    (ti ≤ 5000000 → calculate_surcharge ti tax regime = 0) ∧
    calculate_surcharge 5000001 tax .old = 0.10 * tax ∧
    calculate_surcharge 10000000 tax .old = 0.10 * tax ∧
    calculate_surcharge 20000000 tax .old = 0.15 * tax ∧
    calculate_surcharge 50000000 tax .old = 0.25 * tax ∧
    calculate_surcharge 10000000 tax .new = 0.10 * tax ∧
    calculate_surcharge 20000000 tax .new = 0.15 * tax := by
  have floor : ∀ r, ti ≤ 5000000 → calculate_surcharge ti tax r = 0 := by
    intro r h
    simp only [calculate_surcharge, LIMITS.surcharge_50l]
    rw [if_pos h]
  refine ⟨floor regime, ?_, ?_, ?_, ?_, ?_, ?_⟩ <;>
    · norm_num [calculate_surcharge, LIMITS.surcharge_50l, LIMITS.surcharge_1cr,
        LIMITS.surcharge_2cr, LIMITS.surcharge_5cr]
      ring

/-- Witness for `C6_surcharge_thresholds`: taxable income 3,000,000 draws no
surcharge in the simplified regime. -/
theorem C6_surcharge_thresholds_witness :
    calculate_surcharge 3000000 12345 .new = 0 :=
  (C6_surcharge_thresholds 3000000 12345 .new).1 (by norm_num)

/-- C7: the HRA exemption is never negative and never exceeds the HRA
received; it is zero when rent paid is zero; and when both HRA received and
rent paid are positive it is the three-way minimum of actual HRA, rent minus
10% of basic-plus-DA, and 50% (metro) / 40% (non-metro) of basic-plus-DA,
floored at zero. -/
theorem C7_hra_exemption (v : InputRecord) (hh : 0 ≤ v.hra_received) :
    0 ≤ calculate_hra_exemption v ∧
    calculate_hra_exemption v ≤ v.hra_received ∧
    (v.rent_paid_annual = 0 → calculate_hra_exemption v = 0) ∧
    (0 < v.hra_received ∧ 0 < v.rent_paid_annual →
      calculate_hra_exemption v =
        max 0 (min v.hra_received
          (min (v.rent_paid_annual - 0.10 * (v.basic_salary + v.dearness_allowance))
            (if v.city_type = .metro then
              0.50 * (v.basic_salary + v.dearness_allowance)
             else 0.40 * (v.basic_salary + v.dearness_allowance))))) := by
  refine ⟨?_, ?_, ?_, ?_⟩
  · unfold calculate_hra_exemption
    split
    · exact le_refl 0
    · exact le_max_left 0 _
  · unfold calculate_hra_exemption
    split
    · exact hh
    · exact max_le hh (min_le_left _ _)
  · intro hr
    unfold calculate_hra_exemption
    rw [if_pos (Or.inr hr)]
  · rintro ⟨h1, h2⟩
    unfold calculate_hra_exemption
    rw [if_neg (by push_neg; exact ⟨ne_of_gt h1, ne_of_gt h2⟩)]

/-- Witness for `C7_hra_exemption` at a concrete record (metro, HRA 200,000,
rent 180,000, basic 600,000: exemption is min(200000, 120000, 300000) =
120,000). -/
theorem C7_hra_exemption_witness :
    calculate_hra_exemption
      { basic_salary := 600000, hra_received := 200000,
        rent_paid_annual := 180000, city_type := .metro } = 120000 := by
  have h := (C7_hra_exemption
    { basic_salary := 600000, hra_received := 200000,
      rent_paid_annual := 180000, city_type := .metro }
    (by norm_num)).2.2.2 (by norm_num)
  rw [h]; norm_num

/-- C8: the engine is deterministic and order-independent — two invocations on
the same Input Record give the same Breakdown, and `compare_regimes` returns
the same pair as the variant that evaluates the simplified regime first and
the same pair as invoking the engine once per regime. -/
theorem C8_deterministic_order_independent (v : InputRecord) :
    calculate_tax v .old = calculate_tax v .old ∧
    calculate_tax v .new = calculate_tax v .new ∧
    compare_regimes v = compare_regimes_swapped v ∧
    compare_regimes v = (calculate_tax v .old, calculate_tax v .new) :=
  ⟨rfl, rfl, rfl, rfl⟩

/-- C9: the preventive-health-checkup input has no effect on the output — for
both regimes, two Input Records differing only in `preventive_health_checkup`
produce the same Breakdown (the computed preventive amount is never added to
the Section 80D deduction, the Chapter VI-A total, or the total tax). -/
theorem C9_preventive_checkup_unused (v : InputRecord) (x y : ℚ)
    (regime : Regime) :
    calculate_tax { v with preventive_health_checkup := x } regime =
      calculate_tax { v with preventive_health_checkup := y } regime := rfl

/-- First-hit combination of two optional lookups. -/
def optOr : Option ℚ → Option ℚ → Option ℚ
  | some x, _ => some x
  | none, y => y

/-- Key lookup in an association list (Python `d[k]` read access: the dicts
built by the calculators bind each key at most once). -/
def dictLookup (k : String) : List (String × ℚ) → Option ℚ
  | [] => none
  | (k', x) :: rest => if k' = k then some x else dictLookup k rest

theorem dictLookup_append (k : String) (l1 l2 : List (String × ℚ)) :
    dictLookup k (l1 ++ l2) = optOr (dictLookup k l1) (dictLookup k l2) := by
  induction l1 with
  | nil => simp [dictLookup, optOr]
  | cons p rest ih =>
    obtain ⟨k', x⟩ := p
    simp only [List.cons_append, dictLookup]
    split
    · simp [optOr]
    · exact ih

theorem optOr_none_right (o : Option ℚ) : optOr o none = o := by
  cases o <;> rfl

theorem optOr_some_left (x : ℚ) (y : Option ℚ) : optOr (some x) y = some x := rfl

theorem optOr_none_left (y : Option ℚ) : optOr none y = y := rfl

set_option maxHeartbeats 2000000 in
/-- C10: in the legacy regime the Section 80DD disabled-dependent deduction is
a flat amount, not a cap on expenses: whenever
`disabled_dependent_expenses > 0` the 80DD entry is exactly 125,000 if the
severe-disability flag is set and exactly 75,000 otherwise, regardless of the
expense amount; when the expenses are 0 no 80DD entry appears. -/
theorem C10_80dd_flat_amount (v : InputRecord) :
    (0 < v.disabled_dependent_expenses →
      dictLookup "Section 80DD - Disabled Dependent"
          (calculate_chapter_via_old_regime v) =
        some (if v.is_severe_disability then 125000 else 75000)) ∧
    (v.disabled_dependent_expenses = 0 →
      dictLookup "Section 80DD - Disabled Dependent"
          (calculate_chapter_via_old_regime v) = none) := by
  constructor
  · intro h
    simp [calculate_chapter_via_old_regime, dictLookup_append,
      apply_ite (dictLookup "Section 80DD - Disabled Dependent"),
      dictLookup, h, LIMITS.severe_80dd, LIMITS.normal_80dd,
      optOr_none_right, optOr_some_left, optOr_none_left,
      apply_ite (α := ℚ) some]
  · intro h
    simp [calculate_chapter_via_old_regime, dictLookup_append,
      apply_ite (dictLookup "Section 80DD - Disabled Dependent"),
      dictLookup, optOr_none_right, optOr_some_left, optOr_none_left, h]

/-- Witness for `C10_80dd_flat_amount`: expenses 1,000 with the severe flag
unset yield the flat 75,000 deduction; expenses 0 yield no entry. -/
theorem C10_80dd_flat_amount_witness :
    dictLookup "Section 80DD - Disabled Dependent"
        (calculate_chapter_via_old_regime
          { disabled_dependent_expenses := 1000 }) = some 75000 ∧
    dictLookup "Section 80DD - Disabled Dependent"
        (calculate_chapter_via_old_regime
          { basic_salary := 500000 }) = none := by
  constructor
  · have h := (C10_80dd_flat_amount { disabled_dependent_expenses := 1000 }).1
      (by norm_num)
    rw [h]; norm_num
  · exact (C10_80dd_flat_amount { basic_salary := 500000 }).2 rfl

/-- Well-formedness of a slab table relative to the running `previous_limit`:
the next finite bound is at least the previous one and every rate is
non-negative (after an unbounded entry the loop always breaks, so nothing is
required of later entries). -/
def SlabsWF : ℚ → List Slab → Prop
  | _, [] => True
  | prev, (some l, rate) :: rest => prev ≤ l ∧ 0 ≤ rate ∧ SlabsWF l rest
  | _, (none, rate) :: _ => 0 ≤ rate

theorem taxLoop_self_zero (i : ℚ) (slabs : List Slab) : taxLoop i slabs i = 0 := by
  cases slabs with
  | nil => rfl
  | cons p rest =>
    obtain ⟨limit, rate⟩ := p
    simp [taxLoop]

theorem taxLoop_nonneg (i : ℚ) (slabs : List Slab) (prev : ℚ)
    (hwf : SlabsWF prev slabs) : 0 ≤ taxLoop i slabs prev := by
  induction slabs generalizing prev with
  | nil => simp [taxLoop]
  | cons p rest ih =>
    obtain ⟨limit, rate⟩ := p
    by_cases hb : i ≤ prev
    · simp [taxLoop, hb]
    · push_neg at hb
      cases limit with
      | some l =>
        obtain ⟨hpl, hr, hwf'⟩ := hwf
        simp only [taxLoop, if_neg (not_le.mpr hb)]
        have hmin : prev ≤ min i l := le_min hb.le hpl
        exact add_nonneg (mul_nonneg (by linarith) hr) (ih l hwf')
      | none =>
        have hr : 0 ≤ rate := hwf
        simp only [taxLoop, if_neg (not_le.mpr hb), taxLoop_self_zero]
        have : 0 ≤ i - prev := by linarith
        nlinarith

theorem taxLoop_mono (x y : ℚ) (hxy : x ≤ y) (slabs : List Slab) (prev : ℚ)
    (hwf : SlabsWF prev slabs) : taxLoop x slabs prev ≤ taxLoop y slabs prev := by
  induction slabs generalizing prev with
  | nil => simp [taxLoop]
  | cons p rest ih =>
    obtain ⟨limit, rate⟩ := p
    by_cases hx : x ≤ prev
    · have hz : taxLoop x ((limit, rate) :: rest) prev = 0 := by
        simp [taxLoop, hx]
      rw [hz]
      exact taxLoop_nonneg y _ prev hwf
    · have hy : ¬ y ≤ prev := fun h => hx (hxy.trans h)
      cases limit with
      | some l =>
        obtain ⟨hpl, hr, hwf'⟩ := hwf
        simp only [taxLoop, if_neg hx, if_neg hy]
        refine add_le_add ?_ (ih l hwf')
        refine mul_le_mul_of_nonneg_right ?_ hr
        have : min x l ≤ min y l := min_le_min hxy (le_refl l)
        linarith
      | none =>
        have hr : 0 ≤ rate := hwf
        simp only [taxLoop, if_neg hx, if_neg hy, taxLoop_self_zero]
        have hsub : x - prev ≤ y - prev := by linarith
        simpa using mul_le_mul_of_nonneg_right hsub hr

theorem slabsFor_wf (regime : Regime) (age : AgeCategory) :
    SlabsWF 0 (slabsFor regime age) := by
  cases regime <;> cases age <;>
    norm_num [slabsFor, SlabsWF, NEW_REGIME_SLABS, OLD_REGIME_SLABS_BELOW_60,
      OLD_REGIME_SLABS_SENIOR, OLD_REGIME_SLABS_SUPER_SENIOR]

/-- C4: for every regime and (in the legacy regime) every age bracket, the
slab-tax function is monotonically non-decreasing in taxable income, and every
non-positive taxable income yields exactly 0 (the total function raises no
error). -/
theorem C4_slab_tax_monotone (regime : Regime) (age : AgeCategory) (x y : ℚ) :
    (x ≤ y → calculate_tax_on_income x regime age ≤
      calculate_tax_on_income y regime age) ∧
    (x ≤ 0 → calculate_tax_on_income x regime age = 0) := by
  constructor
  · intro hxy
    unfold calculate_tax_on_income
    by_cases hy : y ≤ 0
    · rw [if_pos (hxy.trans hy), if_pos hy]
    · rw [if_neg hy]
      by_cases hx : x ≤ 0
      · rw [if_pos hx]
        exact taxLoop_nonneg y _ 0 (slabsFor_wf regime age)
      · rw [if_neg hx]
        exact taxLoop_mono x y hxy _ 0 (slabsFor_wf regime age)
  · intro hx
    unfold calculate_tax_on_income
    rw [if_pos hx]

/-- Witness for `C4_slab_tax_monotone`: monotone between 1,000,000 and
1,125,000 in the simplified regime, and zero at −5 for a legacy senior. -/
theorem C4_slab_tax_monotone_witness :
    calculate_tax_on_income 1000000 .new .below_60 ≤
      calculate_tax_on_income 1125000 .new .below_60 ∧
    calculate_tax_on_income (-5) .old .senior = 0 :=
  ⟨(C4_slab_tax_monotone .new .below_60 1000000 1125000).1 (by norm_num),
   (C4_slab_tax_monotone .old .senior (-5) 0).2 (by norm_num)⟩
